import Mathlib

/-!
Shallow embedding of the LLMeaning repository (src/python_code).

The repository has four scripts:
  generate_thinker_meaning.py        : single-item essay generation
  generate_thinker_questionnaires.py : single-item questionnaire generation
  batch_generate_thinkers.py         : batch orchestrator over a fixed list
  batch_generate_questionnaires.py   : batch orchestrator over a directory scan

The external LLM collaborator is modelled as an `Except String String`
input (error message on raise, returned text on success); the filesystem
is modelled as an association list from path to content; process exit
codes are modelled as a `Nat` (0 for a normal return of `main`, 1 for an
uncaught exception terminating the interpreter).
-/

/-! ### Python string primitives used by the scripts -/

/-- Lowercase mapping for the characters this repository handles:
ASCII letters plus the Danish letter used in one thinker name. -/
def pyToLowerChar (c : Char) : Char :=
  if c = 'Ø' then 'ø' else c.toLower

/-- Uppercase mapping for the characters this repository handles. -/
def pyToUpperChar (c : Char) : Char :=
  if c = 'ø' then 'Ø' else c.toUpper

/-- A cased character in the sense of CPython `str.title` word detection
(letters; here ASCII letters plus the Danish letter). -/
def pyIsCased (c : Char) : Bool :=
  c.isAlpha || c = 'ø' || c = 'Ø'

/-- Python `str.lower`. -/
def pyLower (s : String) : String :=
  ⟨s.data.map pyToLowerChar⟩

/-- Scanner for Python `str.title`: the flag records whether the previous
character was cased; a cased character after a non-cased one is uppercased,
a cased character after a cased one is lowercased. -/
def pyTitleAux : Bool → List Char → List Char
  | _, [] => []
  | prevCased, c :: cs =>
    let c2 := if pyIsCased c then (if prevCased then pyToLowerChar c else pyToUpperChar c) else c
    c2 :: pyTitleAux (pyIsCased c) cs

/-- Python `str.title`. -/
def pyTitle (s : String) : String :=
  ⟨pyTitleAux false s.data⟩

/-- Python whitespace characters stripped by `str.strip` (ASCII range). -/
def pyIsSpace (c : Char) : Bool :=
  c = ' ' || c = '\t' || c = '\n' || c = '\r' || c = '\x0B' || c = '\x0C'

/-- Python `str.strip` (no arguments): remove leading and trailing whitespace. -/
def pyStrip (s : String) : String :=
  ⟨((s.data.dropWhile pyIsSpace).reverse.dropWhile pyIsSpace).reverse⟩

/-- Does the first list occur at the head of the second list? -/
def beginsWith : List Char → List Char → Bool
  | [], _ => true
  | _ :: _, [] => false
  | p :: ps, c :: cs => p = c && beginsWith ps cs

/-- Fuel-driven scanner for Python `str.replace`: replace non-overlapping
occurrences left to right, never rescanning a replacement.  The fuel is an
upper bound on the number of scan steps; `pyReplace` passes the length of
the subject, which suffices because every step with a non-empty pattern
consumes at least one character. -/
def replaceAux (pat repl : List Char) : Nat → List Char → List Char
  | 0, s => s
  | _ + 1, [] => []
  | fuel + 1, c :: cs =>
    if beginsWith pat (c :: cs) then repl ++ replaceAux pat repl fuel (List.drop pat.length (c :: cs))
    else c :: replaceAux pat repl fuel cs

/-- Python `str.replace` (all occurrences). -/
def pyReplace (s pat repl : String) : String :=
  ⟨replaceAux pat.data repl.data s.data.length s.data⟩

/-- Does the string end with the given suffix? -/
def strEndsWith (s suffix : String) : Bool :=
  beginsWith suffix.data.reverse s.data.reverse

/-- Code-point lexicographic comparison of character lists; this is the
order Python uses to compare strings, hence the order of `sorted`. -/
def lexLe : List Char → List Char → Bool
  | [], _ => true
  | _ :: _, [] => false
  | a :: as, b :: bs =>
    if a < b then true
    else if b < a then false
    else lexLe as bs

/-- Python string comparison, as a Bool on Lean strings. -/
def pyStrLe (a b : String) : Bool :=
  lexLe a.data b.data

/-! ### Naming convention (slug, filenames, paths)

All three call sites build the filename as
`thinker_name.replace(' ', '_').lower() + suffix`. -/

/-- Slug derivation: replace spaces by underscores, then lowercase. -/
def slug (name : String) : String :=
  pyLower (pyReplace name " " "_")

def thinkersDir : String := "../thinkers_texts"

def questionnairesDir : String := "../generated_questionnaires"

def meaningFilename (name : String) : String :=
  slug name ++ "_meaning.txt"

def meaningPath (name : String) : String :=
  thinkersDir ++ "/" ++ meaningFilename name

def questionnaireFilename (name : String) : String :=
  slug name ++ "_questionnaire.txt"

def questionnairePath (name : String) : String :=
  questionnairesDir ++ "/" ++ questionnaireFilename name

/-- The separator line written into every header, `'='` repeated 50 times. -/
def eqLine : String :=
  ⟨List.replicate 50 '='⟩

/-- Header written by `save_thinker_essay`. -/
def meaningHeader (name ts : String) : String :=
  "Generated on: " ++ ts ++ "\nThinker: " ++ name ++ "\n" ++ eqLine ++ "\n\n"

/-- Header written by `save_questionnaire`. -/
def questionnaireHeader (name ts : String) : String :=
  "Generated on: " ++ ts ++ "\nThinker: " ++ name ++ "\nQuestionnaire Type: Meaning in Life\n" ++ eqLine ++ "\n\n"

/-- `save_thinker_essay`: the single file write it performs, as
(path, content).  The timestamp is an input of the model. -/
def save_thinker_essay (name ts essay : String) : String × String :=
  (meaningPath name, meaningHeader name ts ++ essay)

/-- `save_questionnaire`: the single file write it performs. -/
def save_questionnaire (name ts q : String) : String × String :=
  (questionnairePath name, questionnaireHeader name ts ++ q)

/-! ### Credential lookup and the generation functions -/

/-- Python truthiness of an optional string (argparse gives `None` when the
flag is absent; `os.getenv` gives `None` when the variable is unset; the
empty string is falsy). -/
def pyTruthy : Option String → Bool
  | none => false
  | some s => !(s == "")

/-- The `ValueError` message raised when no credential is found. -/
def credErrorMsg : String :=
  "OpenAI API key not found. Please set OPENAI_API_KEY environment variable or pass it as argument."

/-- `setup_openai_client` (identical in both single-item scripts): accept
the argument credential if truthy, otherwise the environment credential if
truthy, otherwise raise `ValueError`. -/
def setup_openai_client (apiKeyArg envKey : Option String) : Except String Unit :=
  if pyTruthy apiKeyArg then Except.ok ()
  else if pyTruthy envKey then Except.ok ()
  else Except.error credErrorMsg

/-- `generate_thinker_meaning_essay`: the client is set up outside the
try block, so a `ValueError` propagates (`Except.error`); the collaborator
call is inside the try block, so its raise is caught and `None` is
returned; on success the returned text is stripped. -/
def generate_thinker_meaning_essay (apiKeyArg envKey : Option String)
    (collab : Except String String) : Except String (Option String) :=
  match setup_openai_client apiKeyArg envKey with
  | Except.error e => Except.error e
  | Except.ok _ =>
    match collab with
    | Except.error _ => Except.ok none
    | Except.ok t => Except.ok (some (pyStrip t))

/-- `generate_thinker_questionnaire`: same control flow as the essay
variant (the essay text only feeds the prompt, not the control flow). -/
def generate_thinker_questionnaire (apiKeyArg envKey : Option String)
    (collab : Except String String) : Except String (Option String) :=
  match setup_openai_client apiKeyArg envKey with
  | Except.error e => Except.error e
  | Except.ok _ =>
    match collab with
    | Except.error _ => Except.ok none
    | Except.ok t => Except.ok (some (pyStrip t))

/-- `read_thinker_text`: raise `FileNotFoundError` when the essay file is
absent, otherwise return its content.  The filesystem is an association
list from path to content. -/
def read_thinker_text (fs : List (String × String)) (name : String) : Except String String :=
  match fs.lookup (meaningPath name) with
  | none => Except.error ("Thinker text file not found: " ++ meaningPath name)
  | some t => Except.ok t

/-! ### The two `main` entry points -/

/-- Observable outcome of one single-item process run: the process exit
code (0 for a normal return of `main`, 1 for an uncaught exception), the
list of file writes performed, whether the external collaborator was
invoked, and whether the script reached its success branch. -/
structure RunResult where
  exitCode : Nat
  writes : List (String × String)
  collabCalled : Bool
  succeeded : Bool
deriving DecidableEq, Repr

/-- `main` of generate_thinker_meaning.py.  A `ValueError` from the client
setup is uncaught (the script has no try block in `main`), so the process
dies with exit code 1; a caught collaborator error or a falsy essay prints
a failure message and returns normally (exit code 0). -/
def meaningMain (name ts : String) (apiKeyArg envKey : Option String)
    (collab : Except String String) : RunResult :=
  match generate_thinker_meaning_essay apiKeyArg envKey collab with
  | Except.error _ => ⟨1, [], false, false⟩
  | Except.ok essay =>
    if pyTruthy essay then
      ⟨0, [save_thinker_essay name ts (essay.getD "")], true, true⟩
    else
      ⟨0, [], true, false⟩

/-- `main` of generate_thinker_questionnaires.py.  Everything runs inside
one try block: `FileNotFoundError` from `read_thinker_text` and any other
exception (including the `ValueError` for a missing credential) are caught
and printed, and `main` returns normally with exit code 0. -/
def questMain (name ts : String) (apiKeyArg envKey : Option String)
    (fs : List (String × String)) (collab : Except String String) : RunResult :=
  match read_thinker_text fs name with
  | Except.error _ => ⟨0, [], false, false⟩
  | Except.ok _ =>
    match generate_thinker_questionnaire apiKeyArg envKey collab with
    | Except.error _ => ⟨0, [], false, false⟩
    | Except.ok q =>
      if pyTruthy q then
        ⟨0, [save_questionnaire name ts (q.getD "")], true, true⟩
      else
        ⟨0, [], true, false⟩

/-! ### Directory scan of batch_generate_questionnaires.py -/

/-- Override table of `get_available_thinkers` (the if/elif chain). -/
def applyOverrides (n : String) : String :=
  if n = "Jean-paul Sartre" then "Jean-Paul Sartre"
  else if n = "Søren Kierkegaard" then "Søren Kierkegaard"
  else n

/-- `Path.stem` for the scanned files; the glob guarantees every matched
filename ends in `.txt`, so the stem drops those four characters. -/
def fileStem (f : String) : String :=
  ⟨f.data.take (f.data.length - 4)⟩

/-- Does a filename match the glob `*_meaning.txt`? -/
def isMeaningFile (f : String) : Bool :=
  strEndsWith f "_meaning.txt"

/-- Display-name derivation of `get_available_thinkers` before the
override table: stem, drop `_meaning`, underscores to spaces, title-case. -/
def thinkerNameOfFileNoOverride (f : String) : String :=
  pyTitle (pyReplace (pyReplace (fileStem f) "_meaning" "") "_" " ")

/-- Full display-name derivation of `get_available_thinkers`. -/
def thinkerNameOfFile (f : String) : String :=
  applyOverrides (thinkerNameOfFileNoOverride f)

/-- `get_available_thinkers`: scan the directory listing, derive display
names, and return them sorted with Python string comparison. -/
def get_available_thinkers (files : List String) : List String :=
  List.insertionSort (fun a b => pyStrLe a b = true)
    ((files.filter isMeaningFile).map thinkerNameOfFile)

/-! ### Batch orchestration -/

/-- Events observable in a batch run, in order: processing one item
(one subprocess invocation) or sleeping for a fixed number of seconds. -/
inductive BatchEvent
  | proc : String → BatchEvent
  | pause : Nat → BatchEvent
deriving DecidableEq, Repr

/-- Final tally and event trace of a batch run. -/
structure BatchResult where
  successful : Nat
  failed : Nat
  trace : List BatchEvent
deriving DecidableEq, Repr

/-- The loop shared by both batch scripts: process each item, increment
exactly one counter according to the outcome of the subprocess, and sleep
for the fixed delay unless the item was the last one (`i < len(thinkers)`).
The per-item outcome of the subprocess is an oracle input. -/
def batchLoop (outcome : String → Bool) (delay : Nat) : List String → BatchResult
  | [] => ⟨0, 0, []⟩
  | t :: rest =>
    let r := batchLoop outcome delay rest
    { successful := (if outcome t then 1 else 0) + r.successful
      failed := (if outcome t then 0 else 1) + r.failed
      trace := BatchEvent.proc t ::
        (if rest.isEmpty then r.trace else BatchEvent.pause delay :: r.trace) }

/-- The hard-coded work list of batch_generate_thinkers.py. -/
def thinkersList : List String :=
  ["Viktor Frankl", "Albert Camus", "Jean-Paul Sartre", "Friedrich Nietzsche", "Søren Kierkegaard"]

/-- `main` of batch_generate_thinkers.py: the fixed list, delay 2. -/
def batchThinkersMain (outcome : String → Bool) : BatchResult :=
  batchLoop outcome 2 thinkersList

/-- `main` of batch_generate_questionnaires.py: directory scan, early
return when no essay file is found, delay 3. -/
def batchQuestionnairesMain (outcome : String → Bool) (files : List String) :
    Option BatchResult :=
  if (get_available_thinkers files).isEmpty then none
  else some (batchLoop outcome 3 (get_available_thinkers files))

/-- The names processed in a trace, in order. -/
def procNames (tr : List BatchEvent) : List String :=
  tr.filterMap fun e =>
    match e with
    | BatchEvent.proc n => some n
    | BatchEvent.pause _ => none

/-- Is an event a pause? -/
def isPause : BatchEvent → Bool
  | BatchEvent.proc _ => false
  | BatchEvent.pause _ => true

/-- An outcome oracle under which every subprocess reports success;
used to instantiate batch runs on concrete inputs. -/
def allSucceed : String → Bool := fun _ => true

/-! ### Order facts for Python string comparison -/

theorem lexLe_nil_left (bs : List Char) : lexLe [] bs = true := rfl

theorem lexLe_cons_nil (a : Char) (as : List Char) : lexLe (a :: as) [] = false := rfl

theorem lexLe_cons_iff (a b : Char) (as bs : List Char) :
    lexLe (a :: as) (b :: bs) = true ↔ a < b ∨ (a = b ∧ lexLe as bs = true) := by
  simp only [lexLe]
  split_ifs with h1 h2
  · simp [h1]
  · have hne : a ≠ b := fun h => absurd (h ▸ h2) (lt_irrefl b)
    simp [h1, hne]
  · have heq : a = b := le_antisymm (le_of_not_lt h2) (le_of_not_lt h1)
    simp [heq, lt_irrefl]

theorem lexLe_total : ∀ as bs : List Char, lexLe as bs = true ∨ lexLe bs as = true
  | [], _ => Or.inl rfl
  | _ :: _, [] => Or.inr rfl
  | a :: as, b :: bs => by
    rcases lt_trichotomy a b with h | h | h
    · exact Or.inl ((lexLe_cons_iff a b as bs).mpr (Or.inl h))
    · rcases lexLe_total as bs with ih | ih
      · exact Or.inl ((lexLe_cons_iff a b as bs).mpr (Or.inr ⟨h, ih⟩))
      · exact Or.inr ((lexLe_cons_iff b a bs as).mpr (Or.inr ⟨h.symm, ih⟩))
    · exact Or.inr ((lexLe_cons_iff b a bs as).mpr (Or.inl h))

theorem lexLe_trans :
    ∀ as bs cs : List Char, lexLe as bs = true → lexLe bs cs = true → lexLe as cs = true
  | [], _, _, _, _ => rfl
  | _ :: _, [], _, h1, _ => absurd h1 (by simp [lexLe_cons_nil])
  | _ :: _, _ :: _, [], _, h2 => absurd h2 (by simp [lexLe_cons_nil])
  | a :: as, b :: bs, c :: cs, h1, h2 => by
    rcases (lexLe_cons_iff a b as bs).mp h1 with hab | ⟨hab, hab2⟩ <;>
      rcases (lexLe_cons_iff b c bs cs).mp h2 with hbc | ⟨hbc, hbc2⟩
    · exact (lexLe_cons_iff a c as cs).mpr (Or.inl (lt_trans hab hbc))
    · exact (lexLe_cons_iff a c as cs).mpr (Or.inl (hbc ▸ hab))
    · exact (lexLe_cons_iff a c as cs).mpr (Or.inl (hab ▸ hbc))
    · exact (lexLe_cons_iff a c as cs).mpr
        (Or.inr ⟨hab.trans hbc, lexLe_trans as bs cs hab2 hbc2⟩)

theorem lexLe_antisymm :
    ∀ as bs : List Char, lexLe as bs = true → lexLe bs as = true → as = bs
  | [], [], _, _ => rfl
  | [], _ :: _, _, h2 => absurd h2 (by simp [lexLe_cons_nil])
  | _ :: _, [], h1, _ => absurd h1 (by simp [lexLe_cons_nil])
  | a :: as, b :: bs, h1, h2 => by
    rcases (lexLe_cons_iff a b as bs).mp h1 with hab | ⟨hab, hab2⟩ <;>
      rcases (lexLe_cons_iff b a bs as).mp h2 with hba | ⟨hba, hba2⟩
    · exact absurd hba (lt_asymm hab)
    · exact absurd (hba ▸ hab) (lt_irrefl a)
    · exact absurd (hab ▸ hba) (lt_irrefl a)
    · exact hab ▸ congrArg (a :: ·) (lexLe_antisymm as bs hab2 hba2)

instance : IsTotal String (fun a b => pyStrLe a b = true) :=
  ⟨fun a b => lexLe_total a.data b.data⟩

instance : IsTrans String (fun a b => pyStrLe a b = true) :=
  ⟨fun a b c => lexLe_trans a.data b.data c.data⟩

instance : IsAntisymm String (fun a b => pyStrLe a b = true) :=
  ⟨fun a b h1 h2 => String.ext (lexLe_antisymm a.data b.data h1 h2)⟩

/-! ### Batch loop facts -/

theorem procNames_proc_cons (n : String) (tr : List BatchEvent) :
    procNames (BatchEvent.proc n :: tr) = n :: procNames tr := by
  simp [procNames, List.filterMap_cons]

theorem procNames_pause_cons (d : Nat) (tr : List BatchEvent) :
    procNames (BatchEvent.pause d :: tr) = procNames tr := by
  simp [procNames, List.filterMap_cons]

theorem batchLoop_totals (outcome : String → Bool) (delay : Nat) (l : List String) :
    (batchLoop outcome delay l).successful + (batchLoop outcome delay l).failed = l.length := by
  induction l with
  | nil => rfl
  | cons t rest ih =>
    simp only [batchLoop, List.length_cons]
    by_cases h : outcome t <;> simp [h] <;> omega

theorem batchLoop_procNames (outcome : String → Bool) (delay : Nat) (l : List String) :
    procNames (batchLoop outcome delay l).trace = l := by
  induction l with
  | nil => rfl
  | cons t rest ih =>
    simp only [batchLoop]
    by_cases h : rest.isEmpty <;>
      simp [h, procNames_proc_cons, procNames_pause_cons, ih]

theorem batchLoop_trace (outcome : String → Bool) (delay : Nat) :
    ∀ l : List String,
      (batchLoop outcome delay l).trace =
        List.intersperse (BatchEvent.pause delay) (l.map BatchEvent.proc)
  | [] => rfl
  | [_] => rfl
  | t :: u :: rs => by
    have ih := batchLoop_trace outcome delay (u :: rs)
    show BatchEvent.proc t :: BatchEvent.pause delay ::
        (batchLoop outcome delay (u :: rs)).trace =
      List.intersperse (BatchEvent.pause delay) ((t :: u :: rs).map BatchEvent.proc)
    rw [ih]
    rfl

theorem batchLoop_pauseCount (outcome : String → Bool) (delay : Nat) :
    ∀ l : List String, l ≠ [] →
      (batchLoop outcome delay l).trace.countP isPause = l.length - 1
  | [], h => absurd rfl h
  | [_], _ => rfl
  | t :: u :: rs, _ => by
    have ih := batchLoop_pauseCount outcome delay (u :: rs) (by simp)
    show List.countP isPause (BatchEvent.proc t :: BatchEvent.pause delay ::
        (batchLoop outcome delay (u :: rs)).trace) = (t :: u :: rs).length - 1
    rw [List.countP_cons, List.countP_cons, ih]
    simp [isPause, List.length_cons]

theorem batchLoop_getLast (outcome : String → Bool) (delay : Nat) :
    ∀ l : List String,
      (batchLoop outcome delay l).trace.getLast? = l.getLast?.map BatchEvent.proc
  | [] => rfl
  | [_] => rfl
  | t :: u :: rs => by
    have ih := batchLoop_getLast outcome delay (u :: rs)
    have h2 : (batchLoop outcome delay (u :: rs)).trace =
        BatchEvent.proc u :: (if rs.isEmpty then (batchLoop outcome delay rs).trace
          else BatchEvent.pause delay :: (batchLoop outcome delay rs).trace) := rfl
    show (BatchEvent.proc t :: BatchEvent.pause delay ::
        (batchLoop outcome delay (u :: rs)).trace).getLast? =
      Option.map BatchEvent.proc (t :: u :: rs).getLast?
    rw [List.getLast?_cons_cons, h2, List.getLast?_cons_cons, ← h2, ih,
      List.getLast?_cons_cons]

/-! ### Claim theorems -/

/-- Claim C3: for every work list of length N processed by a batch
orchestrator, every one of the N items is processed exactly once and in
order (a failure on one item never halts the loop, since the outcome
oracle is arbitrary), each item increments exactly one of the two
counters, and the final tally satisfies successful + failed = N. -/
theorem spec_c3_batch_tally (outcome : String → Bool) (delay : Nat) (l : List String) :
    (batchLoop outcome delay l).successful + (batchLoop outcome delay l).failed = l.length ∧
    procNames (batchLoop outcome delay l).trace = l :=
  ⟨batchLoop_totals outcome delay l, batchLoop_procNames outcome delay l⟩

/-- Claim C8: for every non-empty work list the fixed inter-item pause
occurs exactly once between each pair of consecutive items (the trace is
the processing events interspersed with pauses), N - 1 times in total,
and never after the final item (the last trace event is a processing
event); for N = 1 no pause occurs. -/
theorem spec_c8_pause_schedule (outcome : String → Bool) (delay : Nat)
    (l : List String) (h : l ≠ []) :
    (batchLoop outcome delay l).trace =
      List.intersperse (BatchEvent.pause delay) (l.map BatchEvent.proc) ∧
    (batchLoop outcome delay l).trace.countP isPause = l.length - 1 ∧
    (batchLoop outcome delay l).trace.getLast? = l.getLast?.map BatchEvent.proc :=
  ⟨batchLoop_trace outcome delay l, batchLoop_pauseCount outcome delay l h,
    batchLoop_getLast outcome delay l⟩

/-- Witness for C8 at the hard-coded thinker list of
batch_generate_thinkers.py with its delay of 2 seconds. -/
theorem spec_c8_pause_schedule_witness :
    thinkersList ≠ [] ∧
    ((batchLoop allSucceed 2 thinkersList).trace =
       List.intersperse (BatchEvent.pause 2) (thinkersList.map BatchEvent.proc) ∧
     (batchLoop allSucceed 2 thinkersList).trace.countP isPause = thinkersList.length - 1 ∧
     (batchLoop allSucceed 2 thinkersList).trace.getLast? =
       thinkersList.getLast?.map BatchEvent.proc) :=
  ⟨by decide, spec_c8_pause_schedule allSucceed 2 thinkersList (by decide)⟩

/-- Claim C2: when the prerequisite essay file for a thinker is absent
from the filesystem, the questionnaire run fails (no success, no file
written) and the external collaborator is never invoked. -/
theorem spec_c2_missing_essay_no_collab (name ts : String)
    (apiKeyArg envKey : Option String) (fs : List (String × String))
    (collab : Except String String)
    (h : fs.lookup (meaningPath name) = none) :
    (questMain name ts apiKeyArg envKey fs collab).succeeded = false ∧
    (questMain name ts apiKeyArg envKey fs collab).writes = [] ∧
    (questMain name ts apiKeyArg envKey fs collab).collabCalled = false := by
  simp [questMain, read_thinker_text, h]

/-- Witness for C2: an empty filesystem, where the essay file of
Albert Camus is certainly absent. -/
theorem spec_c2_missing_essay_witness :
    (([] : List (String × String)).lookup (meaningPath "Albert Camus") = none) ∧
    ((questMain "Albert Camus" "2025-01-01 00:00:00" (some "sk-test") none []
        (Except.ok "text")).succeeded = false ∧
     (questMain "Albert Camus" "2025-01-01 00:00:00" (some "sk-test") none []
        (Except.ok "text")).writes = [] ∧
     (questMain "Albert Camus" "2025-01-01 00:00:00" (some "sk-test") none []
        (Except.ok "text")).collabCalled = false) :=
  ⟨by decide, spec_c2_missing_essay_no_collab "Albert Camus" "2025-01-01 00:00:00"
    (some "sk-test") none [] (Except.ok "text") (by decide)⟩

/-- Claim C9: the display names returned by `get_available_thinkers` are
sorted ascending in Python string order and do not depend on the order in
which the directory enumerates its files; hence the questionnaire batch
processes thinkers in sorted-name order. -/
theorem spec_c9_sorted_scan (files1 files2 : List String)
    (outcome : String → Bool) (r : BatchResult)
    (hperm : files1.Perm files2)
    (hr : batchQuestionnairesMain outcome files1 = some r) :
    get_available_thinkers files1 = get_available_thinkers files2 ∧
    List.Sorted (fun a b => pyStrLe a b = true) (get_available_thinkers files1) ∧
    List.Sorted (fun a b => pyStrLe a b = true) (procNames r.trace) := by
  have hsorted : ∀ fs : List String,
      List.Sorted (fun a b => pyStrLe a b = true) (get_available_thinkers fs) :=
    fun fs => List.sorted_insertionSort _ _
  have heq : get_available_thinkers files1 = get_available_thinkers files2 := by
    apply List.eq_of_perm_of_sorted _ (hsorted files1) (hsorted files2)
    exact ((List.perm_insertionSort _ _).trans
      ((hperm.filter isMeaningFile).map thinkerNameOfFile)).trans
      (List.perm_insertionSort _ _).symm
  refine ⟨heq, hsorted files1, ?_⟩
  have hre : r = batchLoop outcome 3 (get_available_thinkers files1) := by
    unfold batchQuestionnairesMain at hr
    by_cases he : (get_available_thinkers files1).isEmpty
    · rw [if_pos he] at hr
      exact absurd hr (by simp)
    · rw [if_neg he] at hr
      exact (Option.some.inj hr).symm
  rw [hre, batchLoop_procNames]
  exact hsorted files1

/-- Witness for C9: two enumeration orders of the same two essay files
give the same sorted display names, and the batch processes them in that
order. -/
theorem spec_c9_sorted_scan_witness :
    (["viktor_frankl_meaning.txt", "albert_camus_meaning.txt"] : List String).Perm
      ["albert_camus_meaning.txt", "viktor_frankl_meaning.txt"] ∧
    batchQuestionnairesMain allSucceed
        ["viktor_frankl_meaning.txt", "albert_camus_meaning.txt"] =
      some ⟨2, 0, [BatchEvent.proc "Albert Camus", BatchEvent.pause 3,
        BatchEvent.proc "Viktor Frankl"]⟩ ∧
    (get_available_thinkers ["viktor_frankl_meaning.txt", "albert_camus_meaning.txt"] =
       get_available_thinkers ["albert_camus_meaning.txt", "viktor_frankl_meaning.txt"] ∧
     List.Sorted (fun a b => pyStrLe a b = true)
       (get_available_thinkers ["viktor_frankl_meaning.txt", "albert_camus_meaning.txt"]) ∧
     List.Sorted (fun a b => pyStrLe a b = true)
       (procNames (BatchResult.mk 2 0 [BatchEvent.proc "Albert Camus", BatchEvent.pause 3,
         BatchEvent.proc "Viktor Frankl"]).trace)) :=
  ⟨by decide, by decide,
    spec_c9_sorted_scan ["viktor_frankl_meaning.txt", "albert_camus_meaning.txt"]
      ["albert_camus_meaning.txt", "viktor_frankl_meaning.txt"] allSucceed
      ⟨2, 0, [BatchEvent.proc "Albert Camus", BatchEvent.pause 3,
        BatchEvent.proc "Viktor Frankl"]⟩ (by decide) (by decide)⟩

/-- Claim C6: every successful single-item run performs exactly one file
write, at the deterministic path derived from the thinker name, whose
header carries the supplied name verbatim on the Thinker line together
with the generation timestamp and ends with a blank line before the
generated text. -/
theorem spec_c6_single_output (name ts essayContent t : String)
    (apiKeyArg envKey : Option String)
    (hkey : pyTruthy apiKeyArg = true ∨ pyTruthy envKey = true)
    (ht : pyStrip t ≠ "") :
    meaningHeader name ts =
      "Generated on: " ++ ts ++ "\nThinker: " ++ name ++ "\n" ++ eqLine ++ "\n\n" ∧
    (meaningMain name ts apiKeyArg envKey (Except.ok t)).writes =
      [(meaningPath name, meaningHeader name ts ++ pyStrip t)] ∧
    (meaningMain name ts apiKeyArg envKey (Except.ok t)).succeeded = true ∧
    questionnaireHeader name ts =
      "Generated on: " ++ ts ++ "\nThinker: " ++ name ++
        "\nQuestionnaire Type: Meaning in Life\n" ++ eqLine ++ "\n\n" ∧
    (questMain name ts apiKeyArg envKey [(meaningPath name, essayContent)]
        (Except.ok t)).writes =
      [(questionnairePath name, questionnaireHeader name ts ++ pyStrip t)] ∧
    (questMain name ts apiKeyArg envKey [(meaningPath name, essayContent)]
        (Except.ok t)).succeeded = true := by
  have hsetup : setup_openai_client apiKeyArg envKey = Except.ok () := by
    by_cases h1 : pyTruthy apiKeyArg
    · simp [setup_openai_client, h1]
    · rcases hkey with h | h
      · exact absurd h h1
      · simp [setup_openai_client, h1, h]
  have htruthy : pyTruthy (some (pyStrip t)) = true := by
    simp [pyTruthy, ht]
  refine ⟨rfl, ?_, ?_, rfl, ?_, ?_⟩ <;>
    simp [meaningMain, questMain, generate_thinker_meaning_essay,
      generate_thinker_questionnaire, read_thinker_text, List.lookup, hsetup,
      htruthy, save_thinker_essay, save_questionnaire]

/-- Witness for C6 at a concrete thinker, timestamp, credential and
returned text. -/
theorem spec_c6_single_output_witness :
    (pyTruthy (some "sk-test") = true ∨ pyTruthy (none : Option String) = true) ∧
    pyStrip "An essay." ≠ "" ∧
    (meaningHeader "Viktor Frankl" "2025-01-01 00:00:00" =
      "Generated on: " ++ "2025-01-01 00:00:00" ++ "\nThinker: " ++ "Viktor Frankl" ++
        "\n" ++ eqLine ++ "\n\n" ∧
    (meaningMain "Viktor Frankl" "2025-01-01 00:00:00" (some "sk-test") none
        (Except.ok "An essay.")).writes =
      [(meaningPath "Viktor Frankl",
        meaningHeader "Viktor Frankl" "2025-01-01 00:00:00" ++ pyStrip "An essay.")] ∧
    (meaningMain "Viktor Frankl" "2025-01-01 00:00:00" (some "sk-test") none
        (Except.ok "An essay.")).succeeded = true ∧
    questionnaireHeader "Viktor Frankl" "2025-01-01 00:00:00" =
      "Generated on: " ++ "2025-01-01 00:00:00" ++ "\nThinker: " ++ "Viktor Frankl" ++
        "\nQuestionnaire Type: Meaning in Life\n" ++ eqLine ++ "\n\n" ∧
    (questMain "Viktor Frankl" "2025-01-01 00:00:00" (some "sk-test") none
        [(meaningPath "Viktor Frankl", "prior essay")] (Except.ok "An essay.")).writes =
      [(questionnairePath "Viktor Frankl",
        questionnaireHeader "Viktor Frankl" "2025-01-01 00:00:00" ++ pyStrip "An essay.")] ∧
    (questMain "Viktor Frankl" "2025-01-01 00:00:00" (some "sk-test") none
        [(meaningPath "Viktor Frankl", "prior essay")] (Except.ok "An essay.")).succeeded
      = true) :=
  ⟨Or.inl (by decide), by decide,
    spec_c6_single_output "Viktor Frankl" "2025-01-01 00:00:00" "prior essay"
      "An essay." (some "sk-test") none (Or.inl (by decide)) (by decide)⟩

/-- Claim C10: when the collaborator call raises, or its text strips to
the empty string, the generation function yields a falsy value, the save
step is never reached, and no file write is performed by either script. -/
theorem spec_c10_failure_writes_nothing (name ts essayContent : String)
    (apiKeyArg envKey : Option String) (collab : Except String String)
    (h : (∃ e, collab = Except.error e) ∨ ∃ t, collab = Except.ok t ∧ pyStrip t = "") :
    pyTruthy (generate_thinker_meaning_essay apiKeyArg envKey collab).toOption.join
      = false ∧
    (meaningMain name ts apiKeyArg envKey collab).writes = [] ∧
    (meaningMain name ts apiKeyArg envKey collab).succeeded = false ∧
    (questMain name ts apiKeyArg envKey [(meaningPath name, essayContent)]
        collab).writes = [] ∧
    (questMain name ts apiKeyArg envKey [(meaningPath name, essayContent)]
        collab).succeeded = false := by
  rcases h with ⟨e2, rfl⟩ | ⟨t, rfl, ht⟩
  · cases hs : setup_openai_client apiKeyArg envKey <;>
      simp [meaningMain, questMain, generate_thinker_meaning_essay,
        generate_thinker_questionnaire, read_thinker_text, List.lookup, hs,
        pyTruthy, Except.toOption, Option.join, Option.bind]
  · cases hs : setup_openai_client apiKeyArg envKey <;>
      simp [meaningMain, questMain, generate_thinker_meaning_essay,
        generate_thinker_questionnaire, read_thinker_text, List.lookup, hs,
        pyTruthy, ht, Except.toOption, Option.join, Option.bind]

/-- Witness for C10: a raising collaborator call. -/
theorem spec_c10_failure_writes_nothing_witness :
    ((∃ e, (Except.error "APIConnectionError" : Except String String) = Except.error e) ∨
      ∃ t, (Except.error "APIConnectionError" : Except String String) = Except.ok t ∧
        pyStrip t = "") ∧
    (pyTruthy (generate_thinker_meaning_essay (some "sk-test") none
        (Except.error "APIConnectionError")).toOption.join = false ∧
     (meaningMain "Albert Camus" "2025-01-01 00:00:00" (some "sk-test") none
        (Except.error "APIConnectionError")).writes = [] ∧
     (meaningMain "Albert Camus" "2025-01-01 00:00:00" (some "sk-test") none
        (Except.error "APIConnectionError")).succeeded = false ∧
     (questMain "Albert Camus" "2025-01-01 00:00:00" (some "sk-test") none
        [(meaningPath "Albert Camus", "essay")] (Except.error "APIConnectionError")).writes
       = [] ∧
     (questMain "Albert Camus" "2025-01-01 00:00:00" (some "sk-test") none
        [(meaningPath "Albert Camus", "essay")]
        (Except.error "APIConnectionError")).succeeded = false) :=
  ⟨Or.inl ⟨"APIConnectionError", rfl⟩,
    spec_c10_failure_writes_nothing "Albert Camus" "2025-01-01 00:00:00" "essay"
      (some "sk-test") none (Except.error "APIConnectionError")
      (Or.inl ⟨"APIConnectionError", rfl⟩)⟩

/-- Claim C1 (code bug): on a failed generation both single-item scripts
return normally from `main` after printing a failure message, so the
process exit code is 0 even though no output file was produced; the same
holds for the questionnaire script when the prerequisite essay file is
missing.  The batch orchestrators classify exit code 0 as success, so
these failed items would be tallied as successful. -/
theorem spec_c1_exit_code_zero_on_failure :
    (meaningMain "Albert Camus" "2025-01-01 00:00:00" (some "sk-test") none
        (Except.error "APIConnectionError")).exitCode = 0 ∧
    (meaningMain "Albert Camus" "2025-01-01 00:00:00" (some "sk-test") none
        (Except.error "APIConnectionError")).succeeded = false ∧
    (meaningMain "Albert Camus" "2025-01-01 00:00:00" (some "sk-test") none
        (Except.error "APIConnectionError")).writes = [] ∧
    (questMain "Albert Camus" "2025-01-01 00:00:00" (some "sk-test") none
        [(meaningPath "Albert Camus", "essay")]
        (Except.error "APIConnectionError")).exitCode = 0 ∧
    (questMain "Albert Camus" "2025-01-01 00:00:00" (some "sk-test") none
        [(meaningPath "Albert Camus", "essay")]
        (Except.error "APIConnectionError")).succeeded = false ∧
    (questMain "Albert Camus" "2025-01-01 00:00:00" (some "sk-test") none []
        (Except.ok "text")).exitCode = 0 ∧
    (questMain "Albert Camus" "2025-01-01 00:00:00" (some "sk-test") none []
        (Except.ok "text")).succeeded = false := by
  decide

/-- Claim C4 counterexample: generic title-casing alone already recovers
both special display names from their filenames, so the recovery is not
"via the override table rather than generic title-casing"; moreover the
intermediate "Jean-paul Sartre" that the first override branch tests for
is never produced by title-casing. -/
theorem spec_c4_counterexample :
    thinkerNameOfFileNoOverride (meaningFilename "Søren Kierkegaard") =
      "Søren Kierkegaard" ∧
    thinkerNameOfFileNoOverride (meaningFilename "Jean-Paul Sartre") =
      "Jean-Paul Sartre" ∧
    pyTitle "jean-paul sartre" = "Jean-Paul Sartre" ∧
    pyTitle "jean-paul sartre" ≠ "Jean-paul Sartre" := by
  decide

/-- Claim C4 (amended): the display-slug-filename-display round trip
reproduces both override-table names exactly, with the documented
filenames; however the override table is not what produces them, since
the derivation without the override table yields the same strings. -/
theorem spec_c4_roundtrip :
    meaningFilename "Søren Kierkegaard" = "søren_kierkegaard_meaning.txt" ∧
    meaningFilename "Jean-Paul Sartre" = "jean-paul_sartre_meaning.txt" ∧
    thinkerNameOfFile (meaningFilename "Søren Kierkegaard") = "Søren Kierkegaard" ∧
    thinkerNameOfFile (meaningFilename "Jean-Paul Sartre") = "Jean-Paul Sartre" ∧
    thinkerNameOfFile (meaningFilename "Søren Kierkegaard") =
      thinkerNameOfFileNoOverride (meaningFilename "Søren Kierkegaard") ∧
    thinkerNameOfFile (meaningFilename "Jean-Paul Sartre") =
      thinkerNameOfFileNoOverride (meaningFilename "Jean-Paul Sartre") := by
  decide

/-- Claim C5 counterexample: in generate_thinker_meaning.py the missing
credential `ValueError` is raised outside any try block and propagates
uncaught, terminating the process with exit code 1 instead of being
caught and printed. -/
theorem spec_c5_counterexample :
    pyTruthy (none : Option String) = false ∧
    (meaningMain "Albert Camus" "2025-01-01 00:00:00" none none
        (Except.ok "essay text")).exitCode = 1 ∧
    (meaningMain "Albert Camus" "2025-01-01 00:00:00" none none
        (Except.ok "essay text")).writes = [] := by
  decide

/-- Claim C5 (amended): the missing-credential error is raised iff the
credential is falsy both as argument and in the environment; in the
questionnaire script that failure is caught and printed (normal exit,
collaborator never invoked, only that item aborted), while in the meaning
script it propagates uncaught, terminating that run with exit code 1. -/
theorem spec_c5_missing_credential (name ts essayContent : String)
    (apiKeyArg envKey : Option String) (collab : Except String String) :
    (setup_openai_client apiKeyArg envKey = Except.error credErrorMsg ↔
      (pyTruthy apiKeyArg = false ∧ pyTruthy envKey = false)) ∧
    (pyTruthy apiKeyArg = false → pyTruthy envKey = false →
      (questMain name ts apiKeyArg envKey [(meaningPath name, essayContent)]
          collab).exitCode = 0 ∧
      (questMain name ts apiKeyArg envKey [(meaningPath name, essayContent)]
          collab).succeeded = false ∧
      (questMain name ts apiKeyArg envKey [(meaningPath name, essayContent)]
          collab).collabCalled = false ∧
      (questMain name ts apiKeyArg envKey [(meaningPath name, essayContent)]
          collab).writes = [] ∧
      (meaningMain name ts apiKeyArg envKey collab).exitCode = 1 ∧
      (meaningMain name ts apiKeyArg envKey collab).writes = []) := by
  constructor
  · constructor
    · intro hs
      by_cases h1 : pyTruthy apiKeyArg
      · simp [setup_openai_client, h1] at hs
      · by_cases h2 : pyTruthy envKey
        · simp [setup_openai_client, h1, h2] at hs
        · exact ⟨by simpa using h1, by simpa using h2⟩
    · rintro ⟨h1, h2⟩
      simp [setup_openai_client, h1, h2]
  · intro h1 h2
    have hsetup : setup_openai_client apiKeyArg envKey = Except.error credErrorMsg := by
      simp [setup_openai_client, h1, h2]
    simp [questMain, meaningMain, generate_thinker_questionnaire,
      generate_thinker_meaning_essay, read_thinker_text, List.lookup, hsetup]

/-- Witness for C5 with both credential sources absent. -/
theorem spec_c5_missing_credential_witness :
    pyTruthy (none : Option String) = false ∧
    ((setup_openai_client none none = Except.error credErrorMsg ↔
       (pyTruthy (none : Option String) = false ∧
        pyTruthy (none : Option String) = false)) ∧
     ((questMain "Albert Camus" "2025-01-01 00:00:00" none none
         [(meaningPath "Albert Camus", "essay")] (Except.ok "essay text")).exitCode = 0 ∧
      (questMain "Albert Camus" "2025-01-01 00:00:00" none none
         [(meaningPath "Albert Camus", "essay")] (Except.ok "essay text")).succeeded
        = false ∧
      (questMain "Albert Camus" "2025-01-01 00:00:00" none none
         [(meaningPath "Albert Camus", "essay")] (Except.ok "essay text")).collabCalled
        = false ∧
      (questMain "Albert Camus" "2025-01-01 00:00:00" none none
         [(meaningPath "Albert Camus", "essay")] (Except.ok "essay text")).writes = [] ∧
      (meaningMain "Albert Camus" "2025-01-01 00:00:00" none none
         (Except.ok "essay text")).exitCode = 1 ∧
      (meaningMain "Albert Camus" "2025-01-01 00:00:00" none none
         (Except.ok "essay text")).writes = [])) :=
  ⟨by decide,
    (spec_c5_missing_credential "Albert Camus" "2025-01-01 00:00:00" "essay"
      none none (Except.ok "essay text")).1,
    (spec_c5_missing_credential "Albert Camus" "2025-01-01 00:00:00" "essay"
      none none (Except.ok "essay text")).2 (by decide) (by decide)⟩

/-- Claim C7 counterexample: the returned text is stripped before
persisting, so for the non-empty returned text " hello " the persisted
body is "hello", not the returned text; and the non-empty whitespace-only
text " \n " is rejected rather than persisted. -/
theorem spec_c7_counterexample :
    (meaningMain "Albert Camus" "2025-01-01 00:00:00" (some "sk-test") none
        (Except.ok " hello ")).writes =
      [(meaningPath "Albert Camus",
        meaningHeader "Albert Camus" "2025-01-01 00:00:00" ++ "hello")] ∧
    ("hello" : String) ≠ " hello " ∧
    (" hello " : String) ≠ "" ∧
    (meaningMain "Albert Camus" "2025-01-01 00:00:00" (some "sk-test") none
        (Except.ok " \n ")).writes = [] ∧
    (" \n " : String) ≠ "" := by
  decide

/-- Claim C7 (amended): any returned text whose stripped form is
non-empty is accepted with no further content validation, and the
persisted body is exactly the stripped text; it equals the returned text
verbatim exactly when that text carries no surrounding whitespace. -/
theorem spec_c7_persist_stripped (name ts essayContent t : String)
    (apiKeyArg envKey : Option String)
    (hkey : pyTruthy apiKeyArg = true ∨ pyTruthy envKey = true)
    (ht : pyStrip t ≠ "") :
    (meaningMain name ts apiKeyArg envKey (Except.ok t)).writes =
      [(meaningPath name, meaningHeader name ts ++ pyStrip t)] ∧
    (meaningMain name ts apiKeyArg envKey (Except.ok t)).succeeded = true ∧
    (pyStrip t = t →
      (meaningMain name ts apiKeyArg envKey (Except.ok t)).writes =
        [(meaningPath name, meaningHeader name ts ++ t)]) ∧
    (questMain name ts apiKeyArg envKey [(meaningPath name, essayContent)]
        (Except.ok t)).writes =
      [(questionnairePath name, questionnaireHeader name ts ++ pyStrip t)] := by
  have hsetup : setup_openai_client apiKeyArg envKey = Except.ok () := by
    by_cases h1 : pyTruthy apiKeyArg
    · simp [setup_openai_client, h1]
    · rcases hkey with h | h
      · exact absurd h h1
      · simp [setup_openai_client, h1, h]
  have htruthy : pyTruthy (some (pyStrip t)) = true := by
    simp [pyTruthy, ht]
  refine ⟨?_, ?_, ?_, ?_⟩
  · simp [meaningMain, generate_thinker_meaning_essay, hsetup, htruthy,
      save_thinker_essay]
  · simp [meaningMain, generate_thinker_meaning_essay, hsetup, htruthy]
  · intro hid
    have htruthy2 : pyTruthy (some t) = true := by
      rw [← hid]
      exact htruthy
    simp [meaningMain, generate_thinker_meaning_essay, hsetup, htruthy2,
      save_thinker_essay, hid]
  · simp [questMain, generate_thinker_questionnaire, read_thinker_text,
      List.lookup, hsetup, htruthy, save_questionnaire]

/-- Witness for C7 at a concrete already-stripped returned text. -/
theorem spec_c7_persist_stripped_witness :
    (pyTruthy (some "sk-test") = true ∨ pyTruthy (none : Option String) = true) ∧
    pyStrip "A questionnaire." ≠ "" ∧
    ((meaningMain "Viktor Frankl" "2025-01-01 00:00:00" (some "sk-test") none
        (Except.ok "A questionnaire.")).writes =
      [(meaningPath "Viktor Frankl",
        meaningHeader "Viktor Frankl" "2025-01-01 00:00:00" ++
          pyStrip "A questionnaire.")] ∧
    (meaningMain "Viktor Frankl" "2025-01-01 00:00:00" (some "sk-test") none
        (Except.ok "A questionnaire.")).succeeded = true ∧
    (pyStrip "A questionnaire." = "A questionnaire." →
      (meaningMain "Viktor Frankl" "2025-01-01 00:00:00" (some "sk-test") none
          (Except.ok "A questionnaire.")).writes =
        [(meaningPath "Viktor Frankl",
          meaningHeader "Viktor Frankl" "2025-01-01 00:00:00" ++ "A questionnaire.")]) ∧
    (questMain "Viktor Frankl" "2025-01-01 00:00:00" (some "sk-test") none
        [(meaningPath "Viktor Frankl", "prior essay")]
        (Except.ok "A questionnaire.")).writes =
      [(questionnairePath "Viktor Frankl",
        questionnaireHeader "Viktor Frankl" "2025-01-01 00:00:00" ++
          pyStrip "A questionnaire.")]) :=
  ⟨Or.inl (by decide), by decide,
    spec_c7_persist_stripped "Viktor Frankl" "2025-01-01 00:00:00" "prior essay"
      "A questionnaire." (some "sk-test") none (Or.inl (by decide)) (by decide)⟩
